import Mathlib

/-!
Verification of the mapa heightmap-to-STL conversion core against its
natural-language specification.  The pipeline orchestration
(`convert_array_to_stl`, `_get_desired_size`, `convert_bbox_to_tif`) is
embedded from `src/mapa/__init__.py`; the STAC fetching flow from
`src/mapa/stac.py`.  Components that live in modules not present in the
sources (`mapa.algorithm`, `mapa.raster`, `mapa.tiling`, `mapa.conf`) are
modelled from the specification and are marked as such in their doc
comments.  Elevation samples and physical sizes are modelled as rationals.
-/

set_option autoImplicit false
set_option linter.unusedVariables false

namespace Mapa

/-- An elevation grid: a row-major 2D array of samples (numpy `ndarray`). -/
abbrev Grid := List (List ℚ)

/-- Number of rows, the first component of numpy `array.shape`. -/
def nrows (g : Grid) : ℕ := g.length

/-- Number of columns, the second component of numpy `array.shape` for a
rectangular 2D array (length of the first row; 0 for an empty grid). -/
def ncols (g : Grid) : ℕ :=
  match g with
  | [] => 0
  | r :: _ => r.length

/-- `ModelSize` from `mapa.algorithm`: the pair of physical target
dimensions (x-width, y-depth). -/
structure ModelSize where
  x : ℚ
  y : ℚ
deriving DecidableEq, Repr

/-- Python's builtin `round` on an exact rational: round half to even
(banker's rounding), returning an integer. -/
def pyRound (q : ℚ) : ℤ :=
  let f := ⌊q⌋
  let r := q - (f : ℚ)
  if r < 1/2 then f
  else if 1/2 < r then f + 1
  else if f % 2 = 0 then f else f + 1

/-- The configuration constants read from `mapa.conf` (module not in the
sources); the orchestration code only compares against them, so they are
kept as parameters. -/
structure Conf where
  MAXIMUM_RESOLUTION : ℚ
  PERFORMANCE_WARNING_THRESHOLD : ℕ
deriving DecidableEq, Repr

/-- `_get_desired_size` from `src/mapa/__init__.py`: if `ensure_squared`
the requested size is returned unchanged, otherwise
`ModelSize(x=x, y=y / rows * cols)`. -/
def _get_desired_size (array : Grid) (x y : ℚ) (ensure_squared : Bool) : ModelSize :=
  if ensure_squared then
    { x := x, y := y }
  else
    let rows : ℕ := nrows array
    let cols : ℕ := ncols array
    { x := x, y := y / (rows : ℚ) * (cols : ℚ) }

/-- A row is "empty" when every sample equals the no-data sentinel. -/
def rowEmpty (nd : ℚ) (row : List ℚ) : Bool :=
  row.all (fun c => decide (c = nd))

/-- Drop the leading and trailing rows of a grid that are entirely no-data. -/
def trimEnds (nd : ℚ) (g : Grid) : Grid :=
  ((g.dropWhile (rowEmpty nd)).reverse.dropWhile (rowEmpty nd)).reverse

/-- Trim empty border rows, then empty border columns (via transposition). -/
def trimBoth (nd : ℚ) (g : Grid) : Grid :=
  (trimEnds nd ((trimEnds nd g).transpose)).transpose

/-- Modelled from the spec: `remove_empty_first_and_last_rows_and_cols`
lives in `mapa.raster`, which is not among the sources.  Per §4.1 it
removes leading/trailing rows and columns that are entirely no-data, but
only when doing so leaves at least a 1×1 array; if the whole grid would be
trimmed away it is returned unchanged. -/
def remove_empty_first_and_last_rows_and_cols (nd : ℚ) (g : Grid) : Grid :=
  let g2 := trimBoth nd g
  if 1 ≤ g2.length ∧ ∀ r ∈ g2, 1 ≤ r.length then g2 else g

/-- Ceiling division on naturals, `⌈a / b⌉`. -/
def ceilDiv (a b : ℕ) : ℕ := (a + b - 1) / b

/-- The `bin_factor × bin_factor` block of input cells at block position
(i, j); a final partial block holds only its available cells. -/
def blockCells (g : Grid) (bf i j : ℕ) : List ℚ :=
  (((g.drop (i * bf)).take bf).map (fun row => (row.drop (j * bf)).take bf)).flatten

/-- Mean of the cells of one block, ignoring no-data sentinels; if the
entire block is no-data, no-data is propagated. -/
def blockMean (nd : ℚ) (cells : List ℚ) : ℚ :=
  let valid := cells.filter (fun c => decide (c ≠ nd))
  if valid.length = 0 then nd else valid.sum / (valid.length : ℚ)

/-- Modelled from the spec: `reduce_resolution` lives in `mapa.algorithm`,
which is not among the sources.  Per §4.2, with `bin_factor ≤ 1` the grid
is returned unchanged; otherwise each output cell is the mean of a
`bin_factor × bin_factor` block (partial final blocks reduced over their
available cells only), giving `⌈rows/bf⌉ × ⌈cols/bf⌉` output cells. -/
def reduce_resolution (nd : ℚ) (g : Grid) (bin_factor : ℕ) : Grid :=
  if bin_factor ≤ 1 then g
  else
    (List.range (ceilDiv (nrows g) bin_factor)).map (fun i =>
      (List.range (ceilDiv (ncols g) bin_factor)).map (fun j =>
        blockMean nd (blockCells g bin_factor i j)))

/-- Minimum of a list of rationals (0 for the empty list, which no caller
hits). -/
def listMin : List ℚ → ℚ
  | [] => 0
  | a :: t => t.foldr min a

/-- The elevations of a grid after scaling: `(raw * elevation_scale) *
z_scale` for every cell, in row-major order. -/
def scaledElevations (g : Grid) (z_scale elevation_scale : ℚ) : List ℚ :=
  g.flatten.map (fun raw => raw * elevation_scale * z_scale)

/-- Modelled from the spec: the `z_offset` handling of
`compute_all_triangles` (`mapa.algorithm`, not among the sources).  Per
§4.3, `effective_offset = z_offset` if provided, else the negative of the
minimum elevation in the grid after scaling. -/
def effective_offset (g : Grid) (z_offset : Option ℚ) (z_scale elevation_scale : ℚ) : ℚ :=
  match z_offset with
  | some o => o
  | none => - listMin (scaledElevations g z_scale elevation_scale)

/-- Modelled from the spec: the z-coordinates occurring in the mesh that
`compute_all_triangles` (`mapa.algorithm`, not among the sources)
produces.  Per §4.3 the flat base (and the foot of every side wall) lies
at z = 0 and each grid cell contributes its per-cell elevation value
`z = (raw * elevation_scale) * z_scale + effective_offset`; side walls
only connect these values, so this list covers the mesh's z-extremes. -/
def mesh_z_values (g : Grid) (z_offset : Option ℚ) (z_scale elevation_scale : ℚ) : List ℚ :=
  0 :: (scaledElevations g z_scale elevation_scale).map
    (fun s => s + effective_offset g z_offset z_scale elevation_scale)

/-- The pipeline stages of `convert_array_to_stl`, in the order they can
appear in an execution trace. -/
inductive Stage where
  | trim
  | warn
  | reduce
  | triangulate
  | serialize
deriving DecidableEq, Repr

/-- The observable outcome of one `convert_array_to_stl` run: the ordered
trace of pipeline stages executed, the bin factor computed (absent with
`max_res`), the array handed to `compute_all_triangles`, and the output
file path handed to `save_to_stl_file`. -/
structure ConvResult where
  trace : List Stage
  binFac : Option ℤ
  preTriangulation : Grid
  output : String
deriving DecidableEq, Repr

/-- The preprocessing step of `convert_array_to_stl`
(`src/mapa/__init__.py` lines 42-45): borders are trimmed only when both
dimensions of the input array exceed 1. -/
def preprocessed (nd : ℚ) (array : Grid) : Grid :=
  if 1 < nrows array ∧ 1 < ncols array then
    remove_empty_first_and_last_rows_and_cols nd array
  else array

/-- The bin factor of `convert_array_to_stl` (`src/mapa/__init__.py` line
54): `round((x / MAXIMUM_RESOLUTION + y / MAXIMUM_RESOLUTION) / 2)`. -/
def binFactor (cfg : Conf) (x y : ℕ) : ℤ :=
  pyRound (((x : ℚ) / cfg.MAXIMUM_RESOLUTION + (y : ℚ) / cfg.MAXIMUM_RESOLUTION) / 2)

/-- `convert_array_to_stl` from `src/mapa/__init__.py`: reads the input
shape, trims borders when both dimensions exceed 1, then either (with
`max_res`) logs an advisory warning when `x * y` exceeds the performance
threshold, or (without) reduces resolution by the computed bin factor when
it exceeds 1; the resulting array is triangulated and serialized to the
output file.  Triangulation and serialization live in modules not among
the sources, so they are recorded as trace events together with the array
and output path they receive. -/
def convertArrayToStl (cfg : Conf) (nd : ℚ) (array : Grid) (as_ascii : Bool)
    (desired_size : ModelSize) (max_res : Bool) (z_offset : Option ℚ)
    (z_scale : ℚ) (elevation_scale : ℚ) (output_file : String) : ConvResult :=
  let x := nrows array
  let y := ncols array
  let a1 := preprocessed nd array
  let tTrim : List Stage := if 1 < x ∧ 1 < y then [Stage.trim] else []
  if max_res then
    { trace := tTrim ++ (if cfg.PERFORMANCE_WARNING_THRESHOLD < x * y then [Stage.warn] else [])
        ++ [Stage.triangulate, Stage.serialize]
      binFac := none
      preTriangulation := a1
      output := output_file }
  else
    let bf := binFactor cfg x y
    if 1 < bf then
      { trace := tTrim ++ [Stage.reduce, Stage.triangulate, Stage.serialize]
        binFac := some bf
        preTriangulation := reduce_resolution nd a1 bf.toNat
        output := output_file }
    else
      { trace := tTrim ++ [Stage.triangulate, Stage.serialize]
        binFac := some bf
        preTriangulation := a1
        output := output_file }

/-- Split a character list at every occurrence of the separator 'x',
mirroring Python's `str.split` (adjacent/terminal separators yield empty
parts, and the result is never the empty list of parts). -/
def splitOnX : List Char → List (List Char)
  | [] => [[]]
  | c :: rest =>
    if c = 'x' then [] :: splitOnX rest
    else
      match splitOnX rest with
      | [] => [[c]]
      | p :: ps => (c :: p) :: ps

/-- Decimal value of a digit string. -/
def digitsVal (l : List Char) : ℕ :=
  l.foldl (fun a c => 10 * a + (c.toNat - 48)) 0

/-- Modelled from the spec: `get_x_y_from_tiles_format` lives in
`mapa.tiling`, which is not among the sources.  Per §4.4 it accepts
exactly the strings of shape `<int>x<int>` with both integers ≥ 1 and
fails with an InvalidTileFormat error (here `none`) on any other shape:
empty string, non-numeric parts, zero counts, extra separators. -/
def get_x_y_from_tiles_format (s : List Char) : Option (ℕ × ℕ) :=
  match splitOnX s with
  | [a, b] =>
    if a ≠ [] ∧ b ≠ [] ∧ (∀ c ∈ a, c.isDigit) ∧ (∀ c ∈ b, c.isDigit) then
      if 1 ≤ digitsVal a ∧ 1 ≤ digitsVal b then some (digitsVal a, digitsVal b) else none
    else none
  | _ => none

/-- A character list has the exact shape `<int>x<int>` denoting the pair
(n, m): a nonempty digit string of value n, the separator 'x', and a
nonempty digit string of value m, with both values ≥ 1. -/
def TileShapeOk (s : List Char) (n m : ℕ) : Prop :=
  ∃ a b, s = a ++ 'x' :: b ∧ a ≠ [] ∧ b ≠ [] ∧
    (∀ c ∈ a, c.isDigit) ∧ (∀ c ∈ b, c.isDigit) ∧
    digitsVal a = n ∧ digitsVal b = m ∧ 1 ≤ n ∧ 1 ≤ m

/-- The errors surfacing from the bbox-to-tif flow:
`NoSTACItemFound` (`mapa.exceptions`), the InvalidTileFormat raised by
`get_x_y_from_tiles_format`, the `ValueError` raised for a missing
bounding box, and the Python `NameError` hit in
`fetch_stac_items_for_bbox` when the loaded raster variable is unbound. -/
inductive MapaError where
  | noStacItemFound
  | invalidTileFormat
  | valueErrorNoBbox
  | pythonNameError
deriving DecidableEq, Repr

/-- The encoding of a file written to disk by the flow. -/
inductive FileKind where
  | geotiff
  | stlBinary
  | stlText
  | zipArchive
deriving DecidableEq, Repr

/-- One file written to disk: its path and its encoding. -/
structure WrittenFile where
  path : String
  kind : FileKind
deriving DecidableEq, Repr

/-- The external state `fetch_stac_items_for_bbox` depends on: the number
of STAC items the catalog search returns, whether they are
planetary-computer items, and the solar-day time groups of the loaded
raster stack (one GeoTIFF is written per group). -/
structure StacEnv where
  numItems : ℕ
  isPlanetaryComputer : Bool
  timeGroups : List String
deriving DecidableEq, Repr

/-- `fetch_stac_items_for_bbox` from `src/mapa/stac.py`: searches the
catalog; with no items it raises NoSTACItemFound; otherwise it saves one
GeoTIFF per solar-day group of the loaded stack via
`save_images_from_xarr`/`save_tifs_with_one_band`, named
`<collection>_<timestamp>.tif` under the cache directory (the loaded
stack `xx` is only bound when the items are planetary-computer items;
otherwise Python hits an unbound variable). -/
def fetch_stac_items_for_bbox (env : StacEnv) (collection : String)
    (cache_dir : String) : Except MapaError (List WrittenFile) :=
  if 0 < env.numItems then
    if env.isPlanetaryComputer then
      Except.ok (env.timeGroups.map (fun t =>
        { path := cache_dir ++ "/" ++ collection ++ "_" ++ t ++ ".tif"
          kind := FileKind.geotiff }))
    else Except.error MapaError.pythonNameError
  else Except.error MapaError.noStacItemFound

/-- The observable outcome of one successful `convert_bbox_to_tif` run:
the files written to disk and the path(s) returned to the caller. -/
structure BboxResult where
  writes : List WrittenFile
  returned : List String
deriving DecidableEq, Repr

/-- `convert_bbox_to_tif` from `src/mapa/__init__.py`: validates the
bounding box, parses the tile format (only to fail early; the tile count
is never used to split anything), fetches the STAC GeoTIFFs, and either
bundles the fetched files into `<output_file>.zip` (`compress`) or
returns their paths directly (the single path when there is exactly one
file). -/
def convert_bbox_to_tif (env : StacEnv) (collection : String)
    (bbox_geometry : Option Unit) (output_file : String)
    (split_area_in_tiles : List Char) (compress : Bool)
    (cache_dir : String) : Except MapaError BboxResult :=
  if bbox_geometry = none then Except.error MapaError.valueErrorNoBbox
  else
    match get_x_y_from_tiles_format split_area_in_tiles with
    | none => Except.error MapaError.invalidTileFormat
    | some _ =>
      match fetch_stac_items_for_bbox env collection cache_dir with
      | Except.error e => Except.error e
      | Except.ok files =>
        if compress then
          Except.ok
            { writes := files ++ [{ path := output_file ++ ".zip", kind := FileKind.zipArchive }]
              returned := [output_file ++ ".zip"] }
        else
          Except.ok
            { writes := files
              returned :=
                match files with
                | [f] => [f.path]
                | _ => files.map (fun f => f.path) }

/-- A sample configuration with a tiny maximum resolution, used to
instantiate theorems on concrete inputs. -/
def cfgA : Conf := { MAXIMUM_RESOLUTION := 1, PERFORMANCE_WARNING_THRESHOLD := 100 }

/-- A sample configuration with the usual large maximum resolution. -/
def cfgB : Conf := { MAXIMUM_RESOLUTION := 1000, PERFORMANCE_WARNING_THRESHOLD := 100 }

/-- A sample target model size. -/
def sizeA : ModelSize := { x := 200, y := 200 }

/-- A sample output-file path. -/
def outA : String := "out.stl"

/-- A sample 2×2 grid of distinct elevations. -/
def gridA : Grid := [[1, 2], [3, 4]]

/-- A degenerate single-row grid. -/
def gridRow : Grid := [[5, 6]]

/-- A 2×2 grid of four identical elevation values. -/
def gridFour : Grid := [[7, 7], [7, 7]]

/-- A 2×2 grid that is entirely no-data (sentinel 0). -/
def gridZero : Grid := [[0, 0], [0, 0]]

/-- A sample STAC environment: one item found, planetary-computer signed,
one solar-day group in the loaded stack. -/
def envC6 : StacEnv :=
  { numItems := 1, isPlanetaryComputer := true, timeGroups := ["2023-10-21_00-00-00"] }

/-- The sample collection name. -/
def collC6 : String := "sentinel-2-l2a"

/-- The sample cache directory. -/
def cacheC6 : String := "cache"

/-- The sample output-file stem handed to `convert_bbox_to_tif`. -/
def outC6 : String := "output"

/-- The sample tile format "1x1". -/
def tilesC6 : List Char := ['1', 'x', '1']

/-- The GeoTIFF path the sample run writes. -/
def tifPathC6 : String := "cache/sentinel-2-l2a_2023-10-21_00-00-00.tif"

end Mapa

open Mapa

/-- C1: for every elevation grid and every target size (x, y), with
`ensure_squared` true `_get_desired_size` returns (x, y) unchanged, and
with `ensure_squared` false it returns (x, y * cols / rows), the
y-dimension rescaled by the grid's column/row ratio. -/
theorem C1_get_desired_size (array : Mapa.Grid) (x y : ℚ) :
    Mapa._get_desired_size array x y true = { x := x, y := y } ∧
    Mapa._get_desired_size array x y false =
      { x := x, y := y * (Mapa.ncols array : ℚ) / (Mapa.nrows array : ℚ) } := by
  constructor
  · rfl
  · simp only [Mapa._get_desired_size, if_neg Bool.false_ne_true]
    congr 1
    rw [div_mul_eq_mul_div]

/-- C4: `convert_array_to_stl` applies its pipeline stages in the fixed
order border trimming, then optional resolution reduction, then
triangulation, then serialization: every execution trace is a sublist of
the canonical stage order and always ends in triangulation followed by
serialization. -/
theorem C4_stage_order (cfg : Conf) (nd : ℚ) (array : Grid) (as_ascii : Bool)
    (desired_size : ModelSize) (max_res : Bool) (z_offset : Option ℚ)
    (z_scale elevation_scale : ℚ) (output_file : String) :
    ((convertArrayToStl cfg nd array as_ascii desired_size max_res z_offset
        z_scale elevation_scale output_file).trace).Sublist
      [Stage.trim, Stage.warn, Stage.reduce, Stage.triangulate, Stage.serialize] ∧
    Stage.triangulate ∈ (convertArrayToStl cfg nd array as_ascii desired_size max_res z_offset
        z_scale elevation_scale output_file).trace ∧
    Stage.serialize ∈ (convertArrayToStl cfg nd array as_ascii desired_size max_res z_offset
        z_scale elevation_scale output_file).trace := by
  cases max_res <;>
    by_cases h1 : 1 < nrows array ∧ 1 < ncols array <;>
    by_cases h2 : cfg.PERFORMANCE_WARNING_THRESHOLD < nrows array * ncols array <;>
    by_cases h3 : 1 < binFactor cfg (nrows array) (ncols array) <;>
    simp [convertArrayToStl, h1, h2, h3] <;> decide

/-- C7: with `max_res` true, resolution reduction is never applied (the
preprocessed grid reaches triangulation at full resolution); when the
cell count exceeds the performance threshold only an advisory warning is
logged, and the run still proceeds to serialize to the output file. -/
theorem C7_max_res_advisory (cfg : Conf) (nd : ℚ) (array : Grid) (as_ascii : Bool)
    (desired_size : ModelSize) (z_offset : Option ℚ)
    (z_scale elevation_scale : ℚ) (output_file : String) :
    Stage.reduce ∉ (convertArrayToStl cfg nd array as_ascii desired_size true z_offset
        z_scale elevation_scale output_file).trace ∧
    (convertArrayToStl cfg nd array as_ascii desired_size true z_offset
        z_scale elevation_scale output_file).preTriangulation = preprocessed nd array ∧
    (Stage.warn ∈ (convertArrayToStl cfg nd array as_ascii desired_size true z_offset
        z_scale elevation_scale output_file).trace ↔
      cfg.PERFORMANCE_WARNING_THRESHOLD < nrows array * ncols array) ∧
    Stage.serialize ∈ (convertArrayToStl cfg nd array as_ascii desired_size true z_offset
        z_scale elevation_scale output_file).trace ∧
    (convertArrayToStl cfg nd array as_ascii desired_size true z_offset
        z_scale elevation_scale output_file).output = output_file := by
  by_cases h1 : 1 < nrows array ∧ 1 < ncols array <;>
    by_cases h2 : cfg.PERFORMANCE_WARNING_THRESHOLD < nrows array * ncols array <;>
    simp [convertArrayToStl, h1, h2]

/-- C2: with `max_res` false, the bin factor is
`round((x / MAXIMUM_RESOLUTION + y / MAXIMUM_RESOLUTION) / 2)` — the
rounded average of `rows / MAXIMUM_RESOLUTION` and
`cols / MAXIMUM_RESOLUTION` over the input shape — and resolution
reduction with exactly that factor is applied if and only if the factor
is strictly greater than 1. -/
theorem C2_bin_factor (cfg : Conf) (nd : ℚ) (array : Grid) (as_ascii : Bool)
    (desired_size : ModelSize) (z_offset : Option ℚ)
    (z_scale elevation_scale : ℚ) (output_file : String) :
    (convertArrayToStl cfg nd array as_ascii desired_size false z_offset
        z_scale elevation_scale output_file).binFac =
      some (binFactor cfg (nrows array) (ncols array)) ∧
    binFactor cfg (nrows array) (ncols array) =
      pyRound (((nrows array : ℚ) / cfg.MAXIMUM_RESOLUTION +
        (ncols array : ℚ) / cfg.MAXIMUM_RESOLUTION) / 2) ∧
    (Stage.reduce ∈ (convertArrayToStl cfg nd array as_ascii desired_size false z_offset
        z_scale elevation_scale output_file).trace ↔
      1 < binFactor cfg (nrows array) (ncols array)) ∧
    (1 < binFactor cfg (nrows array) (ncols array) →
      (convertArrayToStl cfg nd array as_ascii desired_size false z_offset
        z_scale elevation_scale output_file).preTriangulation =
        reduce_resolution nd (preprocessed nd array)
          (binFactor cfg (nrows array) (ncols array)).toNat) ∧
    (binFactor cfg (nrows array) (ncols array) ≤ 1 →
      (convertArrayToStl cfg nd array as_ascii desired_size false z_offset
        z_scale elevation_scale output_file).preTriangulation = preprocessed nd array) := by
  refine ⟨?_, rfl, ?_, ?_, ?_⟩ <;>
    by_cases h1 : 1 < nrows array ∧ 1 < ncols array <;>
    by_cases h3 : 1 < binFactor cfg (nrows array) (ncols array) <;>
    first
      | simp [convertArrayToStl, h1, h3, not_le.mpr h3]
      | simp [convertArrayToStl, h1, h3, not_lt.mp h3]

/-- C2 witness: on the 2×2 grid `gridA` with maximum resolution 1 the bin
factor is 2 and the preprocessed grid is reduced with exactly that
factor. -/
theorem C2_bin_factor_witness :
    (convertArrayToStl cfgA 0 gridA false sizeA false none 1 1 outA).preTriangulation =
      reduce_resolution 0 (preprocessed 0 gridA)
        (binFactor cfgA (nrows gridA) (ncols gridA)).toNat :=
  (C2_bin_factor cfgA 0 gridA false sizeA none 1 1 outA).2.2.2.1 (by
    norm_num [binFactor, pyRound, cfgA, gridA, nrows, ncols])

/-- C9: resolution reduction with bin factor 1 is the identity, and in
`convert_array_to_stl` (with `max_res` false) a grid whose computed bin
factor is at most 1 is passed to triangulation unchanged, with no
reduction stage in the trace. -/
theorem C9_reduce_bin1_identity (cfg : Conf) (nd : ℚ) (array : Grid) (as_ascii : Bool)
    (desired_size : ModelSize) (z_offset : Option ℚ)
    (z_scale elevation_scale : ℚ) (output_file : String) :
    reduce_resolution nd array 1 = array ∧
    (binFactor cfg (nrows array) (ncols array) ≤ 1 →
      Stage.reduce ∉ (convertArrayToStl cfg nd array as_ascii desired_size false z_offset
        z_scale elevation_scale output_file).trace ∧
      (convertArrayToStl cfg nd array as_ascii desired_size false z_offset
        z_scale elevation_scale output_file).preTriangulation = preprocessed nd array) := by
  refine ⟨by simp [reduce_resolution], fun hle => ?_⟩
  have h3 : ¬ 1 < binFactor cfg (nrows array) (ncols array) := not_lt.mpr hle
  by_cases h1 : 1 < nrows array ∧ 1 < ncols array <;>
    simp [convertArrayToStl, h1, h3]

/-- C9 witness: with the usual maximum resolution 1000 the 2×2 grid
`gridA` has bin factor 0 ≤ 1, and indeed no reduction happens: the
preprocessed grid goes to triangulation unchanged. -/
theorem C9_reduce_bin1_identity_witness :
    Stage.reduce ∉ (convertArrayToStl cfgB 0 gridA false sizeA false none 1 1 outA).trace ∧
    (convertArrayToStl cfgB 0 gridA false sizeA false none 1 1 outA).preTriangulation =
      preprocessed 0 gridA :=
  (C9_reduce_bin1_identity cfgB 0 gridA false sizeA none 1 1 outA).2 (by
    norm_num [binFactor, pyRound, cfgB, gridA, nrows, ncols])

/-- C10: border trimming happens in `convert_array_to_stl` exactly when
both dimensions of the original array are strictly greater than 1; for an
array with at most one row or at most one column the array reaches the
later stages untrimmed. -/
theorem C10_trim_condition (cfg : Conf) (nd : ℚ) (array : Grid) (as_ascii : Bool)
    (desired_size : ModelSize) (max_res : Bool) (z_offset : Option ℚ)
    (z_scale elevation_scale : ℚ) (output_file : String) :
    (Stage.trim ∈ (convertArrayToStl cfg nd array as_ascii desired_size max_res z_offset
        z_scale elevation_scale output_file).trace ↔
      (1 < nrows array ∧ 1 < ncols array)) ∧
    (¬ (1 < nrows array ∧ 1 < ncols array) →
      preprocessed nd array = array ∧
      ((convertArrayToStl cfg nd array as_ascii desired_size max_res z_offset
          z_scale elevation_scale output_file).preTriangulation = array ∨
        (convertArrayToStl cfg nd array as_ascii desired_size max_res z_offset
          z_scale elevation_scale output_file).preTriangulation =
          reduce_resolution nd array
            (binFactor cfg (nrows array) (ncols array)).toNat)) := by
  constructor
  · cases max_res <;>
      by_cases h1 : 1 < nrows array ∧ 1 < ncols array <;>
      by_cases h2 : cfg.PERFORMANCE_WARNING_THRESHOLD < nrows array * ncols array <;>
      by_cases h3 : 1 < binFactor cfg (nrows array) (ncols array) <;>
      simp [convertArrayToStl, h1, h2, h3]
  · intro h1
    have hp : preprocessed nd array = array := by simp [preprocessed, h1]
    refine ⟨hp, ?_⟩
    cases max_res <;>
      by_cases h2 : cfg.PERFORMANCE_WARNING_THRESHOLD < nrows array * ncols array <;>
      by_cases h3 : 1 < binFactor cfg (nrows array) (ncols array) <;>
      simp [convertArrayToStl, h1, h2, h3, hp]

/-- C10 witness: the single-row grid `gridRow` is passed through
untrimmed. -/
theorem C10_trim_condition_witness :
    preprocessed 0 gridRow = gridRow ∧
    ((convertArrayToStl cfgB 0 gridRow false sizeA true none 1 1 outA).preTriangulation =
        gridRow ∨
      (convertArrayToStl cfgB 0 gridRow false sizeA true none 1 1 outA).preTriangulation =
        reduce_resolution 0 gridRow (binFactor cfgB (nrows gridRow) (ncols gridRow)).toNat) :=
  (C10_trim_condition cfgB 0 gridRow false sizeA true none 1 1 outA).2 (by
    simp [gridRow, nrows, ncols])

/-- Folding `min` over a list never exceeds the initial value. -/
theorem foldrMin_le_init (init : ℚ) (l : List ℚ) : l.foldr min init ≤ init := by
  induction l with
  | nil => exact le_refl _
  | cons a t ih => exact le_trans (min_le_right _ _) ih

/-- Folding `min` over a list never exceeds any member. -/
theorem foldrMin_le_of_mem {a : ℚ} {l : List ℚ} (init : ℚ) (h : a ∈ l) :
    l.foldr min init ≤ a := by
  induction l with
  | nil => cases h
  | cons b t ih =>
    rcases List.mem_cons.mp h with rfl | h
    · exact min_le_left _ _
    · exact le_trans (min_le_right _ _) (ih h)

/-- A lower bound of the initial value and all members bounds the fold. -/
theorem le_foldrMin {c init : ℚ} {l : List ℚ} (h0 : c ≤ init) (h : ∀ a ∈ l, c ≤ a) :
    c ≤ l.foldr min init := by
  induction l with
  | nil => exact h0
  | cons b t ih =>
    exact le_min (h b (List.mem_cons_self b t)) (ih fun a ha => h a (List.mem_cons_of_mem _ ha))

/-- `listMin` never exceeds any member of the list. -/
theorem listMin_le_of_mem {a : ℚ} {l : List ℚ} (h : a ∈ l) : listMin l ≤ a := by
  cases l with
  | nil => cases h
  | cons b t =>
    simp only [listMin]
    rcases List.mem_cons.mp h with rfl | h
    · exact foldrMin_le_init _ _
    · exact foldrMin_le_of_mem _ h

/-- C3: when `z_offset` is absent the effective offset equals the negative
of the minimum scaled elevation, so the minimum z-coordinate of the
produced mesh is 0. -/
theorem C3_auto_offset_zero_min (g : Grid) (z_scale elevation_scale : ℚ)
    (h : g.flatten ≠ []) :
    effective_offset g none z_scale elevation_scale =
      - listMin (scaledElevations g z_scale elevation_scale) ∧
    listMin (mesh_z_values g none z_scale elevation_scale) = 0 := by
  refine ⟨rfl, ?_⟩
  have he : effective_offset g none z_scale elevation_scale =
      - listMin (scaledElevations g z_scale elevation_scale) := rfl
  apply le_antisymm
  · simpa [mesh_z_values, listMin] using
      foldrMin_le_init 0 ((scaledElevations g z_scale elevation_scale).map
        (fun s => s + effective_offset g none z_scale elevation_scale))
  · simp only [mesh_z_values, listMin]
    apply le_foldrMin (le_refl 0)
    intro a ha
    rcases List.mem_map.mp ha with ⟨s, hs, rfl⟩
    have hms : listMin (scaledElevations g z_scale elevation_scale) ≤ s :=
      listMin_le_of_mem hs
    rw [he]
    linarith

/-- C3 witness: for the grid of four identical elevation values the mesh's
minimum z is 0. -/
theorem C3_auto_offset_zero_min_witness :
    effective_offset gridFour none 1 1 = - listMin (scaledElevations gridFour 1 1) ∧
    listMin (mesh_z_values gridFour none 1 1) = 0 :=
  C3_auto_offset_zero_min gridFour 1 1 (by simp [gridFour])

/-- Trimming the row ends of a grid whose rows are all empty leaves
nothing. -/
theorem trimEnds_eq_nil_of_all_empty {nd : ℚ} {g : Grid}
    (h : ∀ r ∈ g, rowEmpty nd r) : trimEnds nd g = [] := by
  unfold trimEnds
  have h1 : g.dropWhile (rowEmpty nd) = [] := List.dropWhile_eq_nil_iff.mpr h
  simp [h1]

/-- C8: `remove_empty_first_and_last_rows_and_cols` trims border rows and
columns only when at least a 1×1 array remains: every result is either
the input unchanged or an array with at least one row, all rows nonempty;
and a grid that is entirely no-data (which trimming would remove
completely) is returned unchanged. -/
theorem C8_trim_borders (nd : ℚ) (g : Grid) :
    (remove_empty_first_and_last_rows_and_cols nd g = g ∨
      (1 ≤ (remove_empty_first_and_last_rows_and_cols nd g).length ∧
        ∀ r ∈ remove_empty_first_and_last_rows_and_cols nd g, 1 ≤ r.length)) ∧
    ((∀ r ∈ g, ∀ c ∈ r, c = nd) → remove_empty_first_and_last_rows_and_cols nd g = g) := by
  constructor
  · simp only [remove_empty_first_and_last_rows_and_cols]
    by_cases hg : 1 ≤ (trimBoth nd g).length ∧ ∀ r ∈ trimBoth nd g, 1 ≤ r.length
    · right
      rw [if_pos hg]
      exact hg
    · left
      rw [if_neg hg]
  · intro hall
    have hrows : ∀ r ∈ g, rowEmpty nd r := by
      intro r hr
      simp only [rowEmpty, List.all_eq_true, decide_eq_true_eq]
      exact hall r hr
    have h1 : trimEnds nd g = [] := trimEnds_eq_nil_of_all_empty hrows
    have h2 : trimBoth nd g = [] := by
      unfold trimBoth
      rw [h1]
      simp [trimEnds_eq_nil_of_all_empty, List.transpose]
    unfold remove_empty_first_and_last_rows_and_cols
    rw [h2]
    simp

/-- C8 witness: the all-no-data grid `gridZero` would be trimmed away
entirely and is returned unchanged. -/
theorem C8_trim_borders_witness :
    remove_empty_first_and_last_rows_and_cols 0 gridZero = gridZero :=
  (C8_trim_borders 0 gridZero).2 (by
    intro r hr c hc
    simp only [gridZero] at hr
    rcases List.mem_cons.mp hr with rfl | hr
    · simpa using hc
    · rcases List.mem_cons.mp hr with rfl | hr
      · simpa using hc
      · cases hr)

/-- Splitting never produces an empty list of parts. -/
theorem splitOnX_ne_nil (l : List Char) : splitOnX l ≠ [] := by
  induction l with
  | nil => simp [splitOnX]
  | cons c rest ih =>
    simp only [splitOnX]
    by_cases hc : c = 'x'
    · simp [hc]
    · rw [if_neg hc]
      cases hsp : splitOnX rest with
      | nil => simp
      | cons p ps => simp

/-- A split with a single part means the separator never occurred: the
input is that part. -/
theorem splitOnX_singleton {l b : List Char} (h : splitOnX l = [b]) : l = b := by
  induction l generalizing b with
  | nil =>
    simp only [splitOnX, List.cons.injEq] at h
    exact h.1
  | cons c rest ih =>
    simp only [splitOnX] at h
    by_cases hc : c = 'x'
    · rw [if_pos hc] at h
      cases hsp : splitOnX rest with
      | nil => exact absurd hsp (splitOnX_ne_nil rest)
      | cons p ps => rw [hsp] at h; simp at h
    · rw [if_neg hc] at h
      cases hsp : splitOnX rest with
      | nil => exact absurd hsp (splitOnX_ne_nil rest)
      | cons p ps =>
        rw [hsp] at h
        obtain ⟨hb, hps⟩ := List.cons.inj h
        subst hps
        have : rest = p := ih hsp
        subst this
        exact hb ▸ rfl

/-- A split with exactly two parts recovers the input: the first part,
one separator, the second part. -/
theorem splitOnX_pair {l a b : List Char} (h : splitOnX l = [a, b]) :
    l = a ++ 'x' :: b := by
  induction l generalizing a b with
  | nil => simp [splitOnX] at h
  | cons c rest ih =>
    simp only [splitOnX] at h
    by_cases hc : c = 'x'
    · rw [if_pos hc] at h
      obtain ⟨ha, hrest⟩ := List.cons.inj h
      have : rest = b := splitOnX_singleton hrest
      subst this
      simp [hc, ← ha]
    · rw [if_neg hc] at h
      cases hsp : splitOnX rest with
      | nil => exact absurd hsp (splitOnX_ne_nil rest)
      | cons p ps =>
        rw [hsp] at h
        obtain ⟨ha, hps⟩ := List.cons.inj h
        subst hps
        have : rest = p ++ 'x' :: b := ih hsp
        subst this
        simp [← ha]

/-- C5: the tile-format parser maps "2x3" to (2, 3) and "1x1" to (1, 1);
it rejects "", "2x", "axb" and "0x1"; and whenever it returns a pair the
input had the exact shape `<int>x<int>` with both integers at least 1. -/
theorem C5_parse_tile_format :
    get_x_y_from_tiles_format ['2', 'x', '3'] = some (2, 3) ∧
    get_x_y_from_tiles_format ['1', 'x', '1'] = some (1, 1) ∧
    get_x_y_from_tiles_format [] = none ∧
    get_x_y_from_tiles_format ['2', 'x'] = none ∧
    get_x_y_from_tiles_format ['a', 'x', 'b'] = none ∧
    get_x_y_from_tiles_format ['0', 'x', '1'] = none ∧
    ∀ s n m, get_x_y_from_tiles_format s = some (n, m) → TileShapeOk s n m := by
  refine ⟨by decide, by decide, by decide, by decide, by decide, by decide, ?_⟩
  intro s n m h
  rcases hsp : splitOnX s with _ | ⟨a, _ | ⟨b, _ | ⟨c, rest⟩⟩⟩
  · simp [get_x_y_from_tiles_format, hsp] at h
  · simp [get_x_y_from_tiles_format, hsp] at h
  · simp only [get_x_y_from_tiles_format, hsp] at h
    split_ifs at h with h1 h2
    · obtain ⟨hn, hm⟩ := Prod.mk.inj (Option.some.inj h)
      exact ⟨a, b, splitOnX_pair hsp, h1.1, h1.2.1, h1.2.2.1, h1.2.2.2,
        hn, hm, hn ▸ h2.1, hm ▸ h2.2⟩
  · simp [get_x_y_from_tiles_format, hsp] at h

/-- C5 witness: "2x3" indeed has the exact shape `<int>x<int>` denoting
(2, 3). -/
theorem C5_parse_tile_format_witness : TileShapeOk ['2', 'x', '3'] 2 3 :=
  C5_parse_tile_format.2.2.2.2.2.2 ['2', 'x', '3'] 2 3 (by decide)

/-- C6 counterexample: a concrete `convert_bbox_to_tif` run (one STAC
item, one time group, no compression) returns normally, and its sole
produced artifact is a GeoTIFF raster file, not an STL geometry file in
either encoding. -/
theorem C6_counterexample :
    convert_bbox_to_tif envC6 collC6 (some ()) outC6 tilesC6 false cacheC6 =
      Except.ok { writes := [{ path := tifPathC6, kind := FileKind.geotiff }]
                  returned := [tifPathC6] } ∧
    FileKind.geotiff ≠ FileKind.stlBinary ∧ FileKind.geotiff ≠ FileKind.stlText :=
  ⟨rfl, by decide, by decide⟩

/-- C6 (amended): every call to `convert_bbox_to_tif` that returns
normally produces GeoTIFF raster files — one per solar-day time group of
the fetched STAC items, named `<cache_dir>/<collection>_<t>.tif` — plus,
when `compress` is set, a single zip archive at `<output_file>.zip`,
which is then the returned path; no STL geometry file is produced, and
the file count is independent of the tile format. -/
theorem C6_amended_geotiff_outputs (env : StacEnv) (collection : String)
    (bbox : Option Unit) (output_file : String) (tiles : List Char)
    (compress : Bool) (cache_dir : String) (r : BboxResult)
    (h : convert_bbox_to_tif env collection bbox output_file tiles compress cache_dir =
      Except.ok r) :
    (∀ f ∈ r.writes, f.kind ≠ FileKind.stlBinary ∧ f.kind ≠ FileKind.stlText) ∧
    (compress = false →
      r.writes = env.timeGroups.map (fun t =>
        { path := cache_dir ++ "/" ++ collection ++ "_" ++ t ++ ".tif"
          kind := FileKind.geotiff })) ∧
    (compress = true →
      r.writes = env.timeGroups.map (fun t =>
        { path := cache_dir ++ "/" ++ collection ++ "_" ++ t ++ ".tif"
          kind := FileKind.geotiff }) ++
        [{ path := output_file ++ ".zip", kind := FileKind.zipArchive }] ∧
      r.returned = [output_file ++ ".zip"]) := by
  obtain ⟨nItems, isPC, tgs⟩ := env
  rcases bbox with _ | u
  · simp [convert_bbox_to_tif] at h
  · rcases hp : get_x_y_from_tiles_format tiles with _ | p
    · simp [convert_bbox_to_tif, hp] at h
    · rcases nItems with _ | k
      · simp [convert_bbox_to_tif, fetch_stac_items_for_bbox, hp] at h
      · cases isPC
        · simp [convert_bbox_to_tif, fetch_stac_items_for_bbox, hp] at h
        · cases compress
          · simp [convert_bbox_to_tif, fetch_stac_items_for_bbox, hp] at h
            subst h
            refine ⟨?_, by simp, by simp⟩
            intro f hf
            simp only [List.mem_map] at hf
            obtain ⟨t, ht, rfl⟩ := hf
            simp
          · simp [convert_bbox_to_tif, fetch_stac_items_for_bbox, hp] at h
            subst h
            refine ⟨?_, by simp, by simp⟩
            intro f hf
            simp only [List.mem_append, List.mem_map, List.mem_singleton] at hf
            rcases hf with ⟨t, ht, rfl⟩ | rfl <;> simp

/-- C6 amended-claim witness: on the concrete run the written files are
exactly one GeoTIFF per time group of the environment. -/
theorem C6_amended_geotiff_outputs_witness :
    ({ writes := [{ path := tifPathC6, kind := FileKind.geotiff }]
       returned := [tifPathC6] } : BboxResult).writes =
      envC6.timeGroups.map (fun t =>
        { path := cacheC6 ++ "/" ++ collC6 ++ "_" ++ t ++ ".tif"
          kind := FileKind.geotiff }) :=
  (C6_amended_geotiff_outputs envC6 collC6 (some ()) outC6 tilesC6 false cacheC6
    { writes := [{ path := tifPathC6, kind := FileKind.geotiff }]
      returned := [tifPathC6] } rfl).2.1 rfl
